import Mathlib

/-!
Verification of the website heartbeat monitor
(src/heartbeat_monitor.py, src/test_gmail.py, src/fix_token_timezone.py).

The Python program is shallowly embedded: each relevant Python function is
translated into an executable Lean definition over explicit state, and the
claims of the specification are settled as theorems about those definitions.
-/

/-! ## Incident tracker (HeartbeatMonitor.run_check, lines 305-329)

The mutable attributes `consecutive_failures` and `last_alert_sent` of the
`HeartbeatMonitor` object form the tracker state; `run_check` consumes the
boolean outcome of one website check and may emit an alert email.  The alert
threshold is `config.get("max_consecutive_failures", 2)`, a fixed integer
for the run, modelled as the parameter `threshold`.
-/

/-- Tracker state: the two mutable counters of `HeartbeatMonitor` that
`run_check` reads and writes (the last-check timestamp is irrelevant to the
alerting behaviour and omitted). -/
structure TrackerState where
  consecutive_failures : Nat
  last_alert_sent : Bool
deriving DecidableEq, Repr

/-- The externally visible effect of one `run_check` call: either nothing,
or one call to `send_alert_email`.  (Named `TickAction` because `Action` is
taken by Mathlib.) -/
inductive TickAction where
  | none
  | sendAlert
deriving DecidableEq, Repr

/-- One step of `HeartbeatMonitor.run_check` (lines 312-327), given the
health outcome of `check_website`:
on healthy, reset both counters; on unhealthy, increment the failure count
and send an alert exactly when the count has reached the threshold and no
alert was sent yet for the current streak. -/
def run_check (threshold : Nat) (s : TrackerState) (is_healthy : Bool) :
    TrackerState × TickAction :=
  if is_healthy then
    (⟨0, false⟩, TickAction.none)
  else
    let cf := s.consecutive_failures + 1
    if threshold ≤ cf ∧ s.last_alert_sent = false then
      (⟨cf, true⟩, TickAction.sendAlert)
    else
      (⟨cf, s.last_alert_sent⟩, TickAction.none)

/-- Feeding a sequence of check outcomes through `run_check`, collecting the
final state and the list of actions (one per tick). -/
def observeSeq (threshold : Nat) (s : TrackerState) :
    List Bool → TrackerState × List TickAction
  | [] => (s, [])
  | h :: rest =>
    let p := run_check threshold s h
    let q := observeSeq threshold p.1 rest
    (q.1, p.2 :: q.2)

theorem run_check_healthy (t : Nat) (s : TrackerState) :
    run_check t s true = (⟨0, false⟩, TickAction.none) := rfl

theorem run_check_unhealthy_below (t : Nat) (s : TrackerState)
    (h : s.consecutive_failures + 1 < t) :
    run_check t s false =
      (⟨s.consecutive_failures + 1, s.last_alert_sent⟩, TickAction.none) := by
  have hc : ¬ (t ≤ s.consecutive_failures + 1 ∧ s.last_alert_sent = false) := by
    intro hc
    exact absurd hc.1 (by omega)
  simp [run_check, hc]

theorem run_check_unhealthy_latched (t cf : Nat) :
    run_check t ⟨cf, true⟩ false = (⟨cf + 1, true⟩, TickAction.none) := by
  simp [run_check]

theorem run_check_fire (t cf : Nat) (h : t ≤ cf + 1) :
    run_check t ⟨cf, false⟩ false = (⟨cf + 1, true⟩, TickAction.sendAlert) := by
  simp [run_check, h]

theorem observeSeq_append (t : Nat) (s : TrackerState) (l1 l2 : List Bool) :
    observeSeq t s (l1 ++ l2) =
      ((observeSeq t (observeSeq t s l1).1 l2).1,
        (observeSeq t s l1).2 ++ (observeSeq t (observeSeq t s l1).1 l2).2) := by
  induction l1 generalizing s with
  | nil => rfl
  | cons h rest ih =>
    simp only [List.cons_append, observeSeq, List.append_eq, ih]

/-- Below the threshold and with the latch clear, an unhealthy run only
increments the counter. -/
theorem observeSeq_degrading (t : Nat) :
    ∀ (k cf : Nat), cf + k < t →
      observeSeq t ⟨cf, false⟩ (List.replicate k false) =
        (⟨cf + k, false⟩, List.replicate k TickAction.none) := by
  intro k
  induction k with
  | zero => intro cf _; rfl
  | succ k ih =>
    intro cf hlt
    have h1 : cf + 1 + k = cf + (k + 1) := by omega
    simp only [List.replicate_succ, observeSeq,
      run_check_unhealthy_below t ⟨cf, false⟩ (by simp; omega),
      ih (cf + 1) (by omega), h1]

/-- Once the latch is set, an unhealthy run increments the counter but emits
no further action. -/
theorem observeSeq_alerted (t : Nat) :
    ∀ (k cf : Nat),
      observeSeq t ⟨cf, true⟩ (List.replicate k false) =
        (⟨cf + k, true⟩, List.replicate k TickAction.none) := by
  intro k
  induction k with
  | zero => intro cf; rfl
  | succ k ih =>
    intro cf
    have h1 : cf + 1 + k = cf + (k + 1) := by omega
    simp only [List.replicate_succ, observeSeq,
      run_check_unhealthy_latched t cf, ih (cf + 1), h1]

/-- The full behaviour of an unbroken unhealthy streak of length N ≥ t from
the reset state: alert exactly at tick t, counter ends at N, latch ends set. -/
theorem observeSeq_streak (t N : Nat) (ht : 1 ≤ t) (hN : t ≤ N) :
    observeSeq t ⟨0, false⟩ (List.replicate N false) =
      (⟨N, true⟩,
        List.replicate (t - 1) TickAction.none ++
          TickAction.sendAlert :: List.replicate (N - t) TickAction.none) := by
  have hsplit : List.replicate N false =
      List.replicate (t - 1) false ++ (false :: List.replicate (N - t) false) := by
    have h2 : N = (t - 1) + ((N - t) + 1) := by omega
    conv_lhs => rw [h2]
    rw [List.replicate_add, List.replicate_succ]
  have hpre := observeSeq_degrading t (t - 1) 0 (by omega)
  simp only [Nat.zero_add] at hpre
  have hfire : observeSeq t ⟨t - 1, false⟩ (false :: List.replicate (N - t) false) =
      (⟨N, true⟩, TickAction.sendAlert :: List.replicate (N - t) TickAction.none) := by
    have h3 : t - 1 + 1 + (N - t) = N := by omega
    simp only [observeSeq, run_check_fire t (t - 1) (by omega),
      observeSeq_alerted t (N - t) (t - 1 + 1), h3]
  rw [hsplit, observeSeq_append, hpre]
  rw [hfire]

/-- C1: starting from the reset tracker state, a streak of N consecutive
unhealthy results (N ≥ threshold ≥ 1) produces exactly one SendAlert, on the
tick where the failure counter first reaches the threshold; every later tick
of the streak increments the counter but yields no action. -/
theorem alert_exactly_once_per_streak (t N : Nat) (ht : 1 ≤ t) (hN : t ≤ N) :
    observeSeq t ⟨0, false⟩ (List.replicate N false) =
      (⟨N, true⟩,
        List.replicate (t - 1) TickAction.none ++
          TickAction.sendAlert :: List.replicate (N - t) TickAction.none) :=
  observeSeq_streak t N ht hN

/-- Witness for C1 at threshold 2 and streak length 3 (Scenario B of the
spec: actions None, SendAlert, None). -/
theorem alert_exactly_once_per_streak_witness :
    (1 ≤ 2 ∧ 2 ≤ 3) ∧
      observeSeq 2 ⟨0, false⟩ (List.replicate 3 false) =
        (⟨3, true⟩,
          List.replicate 1 TickAction.none ++
            TickAction.sendAlert :: List.replicate 1 TickAction.none) :=
  ⟨⟨by decide, by decide⟩, alert_exactly_once_per_streak 2 3 (by decide) (by decide)⟩

/-- Any run of healthy results starting from the reset state keeps the
tracker in the reset state and emits no action. -/
theorem observeSeq_healthy_run (t : Nat) :
    ∀ n : Nat,
      observeSeq t ⟨0, false⟩ (List.replicate n true) =
        (⟨0, false⟩, List.replicate n TickAction.none) := by
  intro n
  induction n with
  | zero => rfl
  | succ n ih =>
    simp only [List.replicate_succ, observeSeq, run_check_healthy, ih]

/-- C2: a healthy result from any tracker state resets both counters and
emits no action; hence repeated healthy results change nothing, and an
unhealthy streak following a healthy result fires a fresh alert once it
reaches the threshold again. -/
theorem healthy_resets_tracker (t : Nat) (s : TrackerState) :
    run_check t s true = (⟨0, false⟩, TickAction.none)
    ∧ (∀ n : Nat, observeSeq t s (List.replicate (n + 1) true) =
        (⟨0, false⟩, List.replicate (n + 1) TickAction.none))
    ∧ (1 ≤ t →
        (observeSeq t s (true :: List.replicate t false)).2 =
          TickAction.none ::
            (List.replicate (t - 1) TickAction.none ++ [TickAction.sendAlert])) := by
  refine ⟨run_check_healthy t s, ?_, ?_⟩
  · intro n
    simp only [List.replicate_succ, observeSeq, run_check_healthy,
      observeSeq_healthy_run t n]
  · intro ht
    have hs := observeSeq_streak t t ht le_rfl
    simp only [observeSeq, run_check_healthy, hs, Nat.sub_self,
      List.replicate_zero]

/-- Witness for C2 at threshold 2 from the state (3, true). -/
theorem healthy_resets_tracker_witness :
    run_check 2 ⟨3, true⟩ true = (⟨0, false⟩, TickAction.none)
    ∧ observeSeq 2 ⟨3, true⟩ (List.replicate 2 true) =
        (⟨0, false⟩, List.replicate 2 TickAction.none)
    ∧ (observeSeq 2 ⟨3, true⟩ (true :: List.replicate 2 false)).2 =
        TickAction.none ::
          (List.replicate 1 TickAction.none ++ [TickAction.sendAlert]) :=
  ⟨(healthy_resets_tracker 2 ⟨3, true⟩).1,
   (healthy_resets_tracker 2 ⟨3, true⟩).2.1 1,
   (healthy_resets_tracker 2 ⟨3, true⟩).2.2 (by decide)⟩

/-- The latch invariant: the alert flag can be set only while the failure
count is at or above the threshold. -/
def trackerInv (t : Nat) (s : TrackerState) : Prop :=
  s.last_alert_sent = true → t ≤ s.consecutive_failures

theorem trackerInv_step (t : Nat) (s : TrackerState) (b : Bool)
    (hs : trackerInv t s) : trackerInv t (run_check t s b).1 := by
  cases b with
  | true =>
    intro h
    simp [run_check] at h
  | false =>
    by_cases hc : t ≤ s.consecutive_failures + 1 ∧ s.last_alert_sent = false
    · simp only [run_check, Bool.false_eq_true, if_false, if_pos hc]
      intro _
      exact hc.1
    · simp only [run_check, Bool.false_eq_true, if_false, if_neg hc]
      intro h
      have h2 := hs h
      show t ≤ s.consecutive_failures + 1
      omega

theorem trackerInv_observeSeq (t : Nat) :
    ∀ (l : List Bool) (s : TrackerState), trackerInv t s →
      trackerInv t (observeSeq t s l).1 := by
  intro l
  induction l with
  | nil => intro s hs; exact hs
  | cons b rest ih =>
    intro s hs
    exact ih (run_check t s b).1 (trackerInv_step t s b hs)

/-- C3: the predicate (last_alert_sent = true implies consecutive_failures
at or above the threshold) holds in the initial state, is preserved by every
run_check step, and therefore holds in every reachable tracker state. -/
theorem alert_latch_invariant (t : Nat) (ht : 1 ≤ t) :
    trackerInv t ⟨0, false⟩
    ∧ (∀ (s : TrackerState) (b : Bool), trackerInv t s →
        trackerInv t (run_check t s b).1)
    ∧ (∀ results : List Bool, trackerInv t (observeSeq t ⟨0, false⟩ results).1) := by
  refine ⟨?_, ?_, ?_⟩
  · intro h
    exact absurd h (by simp)
  · intro s b hs
    exact trackerInv_step t s b hs
  · intro results
    exact trackerInv_observeSeq t results ⟨0, false⟩ (by intro h; exact absurd h (by simp))

/-- Witness for C3 at threshold 2 over a concrete check sequence. -/
theorem alert_latch_invariant_witness :
    1 ≤ 2 ∧ trackerInv 2 (observeSeq 2 ⟨0, false⟩ [false, false, false]).1 :=
  ⟨by decide, (alert_latch_invariant 2 (by decide)).2.2 [false, false, false]⟩

/-! ## Probe evaluator (HeartbeatMonitor.check_website, lines 263-303)

`check_website` issues one GET to the fixed target URL and converts every
possible outcome, including every caught exception class, into a pair
(healthy, reason).  The outcome of the underlying `requests.get` call is
modelled by `ProbeOutcome`; the Python membership test on strings is the
substring relation on the character lists.
-/

def WEBSITE_URL : String := "https://c2smart.engineering.nyu.edu/"

/-- Python substring membership `needle in haystack`. -/
def substr_in (needle haystack : String) : Prop :=
  needle.toList <:+: haystack.toList

instance (n h : String) : Decidable (substr_in n h) :=
  List.decidableInfix n.toList h.toList

/-- The classification of a completed HTTP response (lines 276-283): healthy
exactly when the status is 200 and the body contains the site marker or is
longer than 1000 characters; otherwise unhealthy with the corresponding
reason string. -/
def check_response (status : Nat) (text : String) : Bool × Option String :=
  if status = 200 then
    if substr_in "C2SMART" text ∨ 1000 < text.length then
      (true, Option.none)
    else
      (false, some ("Website response abnormal: incomplete content (status code: "
        ++ toString status ++ ", content length: " ++ toString text.length
        ++ " bytes)"))
  else
    (false, some ("Website returned error status code: " ++ toString status
      ++ " (URL: " ++ WEBSITE_URL ++ ")"))

/-- Every possible outcome of the `requests.get` call in `check_website`:
a completed response, or one of the exception classes caught by the handlers
on lines 285-303. -/
inductive ProbeOutcome where
  | success (status : Nat) (text : String)
  | timeout
  | connectionError (detail : String)
  | sslError (detail : String)
  | tooManyRedirects
  | requestException (excName detail : String)
  | unexpectedError (excName detail : String)
deriving DecidableEq, Repr

/-- The body of the `except requests.exceptions.ConnectionError` handler
(lines 288-295): dispatch on the exception detail text. -/
def connection_error_result (detail : String) : Bool × Option String :=
  if substr_in "Name or service not known" detail ∨
      substr_in "nodename nor servname provided" detail then
    (false, some ("DNS resolution failed: Unable to resolve domain name for "
      ++ WEBSITE_URL
      ++ ". The domain may not exist or DNS server is unreachable."))
  else if substr_in "Connection refused" detail then
    (false, some ("Connection refused: The server at " ++ WEBSITE_URL
      ++ " is not accepting connections. The server may be down or the port is blocked."))
  else
    (false, some ("Connection error: Unable to connect to server at "
      ++ WEBSITE_URL ++ ". Details: " ++ detail))

/-- The body of the `except requests.exceptions.SSLError` handler on lines
296-297.  The handler is dead code: in the requests library SSLError
subclasses ConnectionError, and the ConnectionError handler on line 288
precedes it, so every TLS failure is caught there and no exception ever
reaches line 296.  The definition records the message the unreachable
handler would emit, for comparison with the one actually produced. -/
def ssl_handler_reason (detail : String) : String :=
  "SSL/TLS error: Certificate verification failed or SSL handshake error. Details: "
    ++ detail

/-- Function `HeartbeatMonitor.check_website` (lines 263-303): dispatch on the probe
outcome in the order of the except clauses, converting every failure mode
into (false, some reason).  A TLS failure (`ProbeOutcome.sslError`) is an
instance of requests ConnectionError, so it is dispatched to the line-288
handler; the dedicated SSLError handler on line 296 is unreachable. -/
def check_website (timeout_val : Nat) (o : ProbeOutcome) : Bool × Option String :=
  match o with
  | ProbeOutcome.success status text => check_response status text
  | ProbeOutcome.timeout =>
      (false, some ("Request timeout after " ++ toString timeout_val
        ++ " seconds. The server did not respond in time. (URL: "
        ++ WEBSITE_URL ++ ")"))
  | ProbeOutcome.connectionError detail => connection_error_result detail
  | ProbeOutcome.sslError detail => connection_error_result detail
  | ProbeOutcome.tooManyRedirects =>
      (false, some ("Too many redirects: The website redirected too many times. This may indicate a redirect loop. (URL: "
        ++ WEBSITE_URL ++ ")"))
  | ProbeOutcome.requestException excName detail =>
      (false, some ("Request exception: " ++ excName ++ " - " ++ detail
        ++ " (URL: " ++ WEBSITE_URL ++ ")"))
  | ProbeOutcome.unexpectedError excName detail =>
      (false, some ("Unknown error: " ++ excName ++ " - " ++ detail
        ++ " (URL: " ++ WEBSITE_URL ++ ")"))

/-- C4: a completed response is classified healthy iff the status is exactly
200 and the body contains the marker or exceeds 1000 characters; a 200
response failing the content test yields the incomplete-content reason, and
a non-200 status yields the status-code reason. -/
theorem healthy_iff_200_and_content (status : Nat) (text : String) :
    ((check_response status text).1 = true ↔
      status = 200 ∧ (substr_in "C2SMART" text ∨ 1000 < text.length))
    ∧ (status = 200 → ¬ substr_in "C2SMART" text → ¬ (1000 < text.length) →
        check_response status text =
          (false, some ("Website response abnormal: incomplete content (status code: "
            ++ toString status ++ ", content length: " ++ toString text.length
            ++ " bytes)")))
    ∧ (status ≠ 200 →
        check_response status text =
          (false, some ("Website returned error status code: " ++ toString status
            ++ " (URL: " ++ WEBSITE_URL ++ ")"))) := by
  refine ⟨⟨?_, ?_⟩, ?_, ?_⟩
  · intro h
    by_cases h200 : status = 200
    · by_cases hc : substr_in "C2SMART" text ∨ 1000 < text.length
      · exact ⟨h200, hc⟩
      · simp [check_response, h200, hc] at h
    · simp [check_response, h200] at h
  · rintro ⟨h200, hc⟩
    simp [check_response, h200, hc]
  · intro h200 hm hl
    simp [check_response, h200, hm, hl]
  · intro h200
    simp [check_response, h200]

/-- A body of 50 characters with no marker string, used for Scenario D. -/
def fiftyBody : String := String.mk (List.replicate 50 'a')

/-- Witness for C4 (Scenario D): status 200, body length 50, no marker. -/
theorem healthy_iff_200_and_content_witness :
    ((200 : Nat) = 200 ∧ ¬ substr_in "C2SMART" fiftyBody ∧ ¬ (1000 < fiftyBody.length))
    ∧ check_response 200 fiftyBody =
        (false, some ("Website response abnormal: incomplete content (status code: "
          ++ toString (200 : Nat) ++ ", content length: " ++ toString fiftyBody.length
          ++ " bytes)")) :=
  ⟨⟨rfl, by decide, by decide⟩,
    (healthy_iff_200_and_content 200 fiftyBody).2.1 rfl (by decide) (by decide)⟩

theorem length_append_pos (a b : String) (h : 0 < a.length) :
    0 < (a ++ b).length := by
  rw [String.length_append]
  omega

theorem check_response_reason_nonempty (status : Nat) (text : String)
    (h : (check_response status text).1 = false) :
    (check_response status text).2 ≠ Option.none ∧
      0 < ((check_response status text).2.getD "").length := by
  by_cases h200 : status = 200
  · by_cases hc : substr_in "C2SMART" text ∨ 1000 < text.length
    · simp [check_response, h200, hc] at h
    · refine ⟨by simp [check_response, h200, hc], ?_⟩
      simp only [check_response, h200, if_pos rfl, if_neg hc, Option.getD_some]
      exact length_append_pos _ _ (length_append_pos _ _
        (length_append_pos _ _ (length_append_pos _ _ (by decide))))
  · refine ⟨by simp [check_response, h200], ?_⟩
    simp only [check_response, if_neg h200, Option.getD_some]
    repeat apply length_append_pos
    decide

theorem connection_error_result_spec (detail : String) :
    (connection_error_result detail).1 = false
    ∧ (connection_error_result detail).2 ≠ Option.none
    ∧ 0 < ((connection_error_result detail).2.getD "").length := by
  by_cases hdns : substr_in "Name or service not known" detail ∨
      substr_in "nodename nor servname provided" detail
  · refine ⟨by simp [connection_error_result, hdns],
      by simp [connection_error_result, hdns], ?_⟩
    simp only [connection_error_result, if_pos hdns, Option.getD_some]
    repeat apply length_append_pos
    decide
  · by_cases href : substr_in "Connection refused" detail
    · refine ⟨by simp [connection_error_result, hdns, href],
        by simp [connection_error_result, hdns, href], ?_⟩
      simp only [connection_error_result, if_neg hdns, if_pos href, Option.getD_some]
      repeat apply length_append_pos
      decide
    · refine ⟨by simp [connection_error_result, hdns, href],
        by simp [connection_error_result, hdns, href], ?_⟩
      simp only [connection_error_result, if_neg hdns, if_neg href, Option.getD_some]
      repeat apply length_append_pos
      decide

/-- C6 (evaluation of the real exception dispatch): every probe outcome
yields a defined (healthy, reason) pair, with a nonempty reason exactly
when unhealthy; but a TLS failure is caught by the ConnectionError handler
(requests SSLError subclasses requests ConnectionError), so it yields the
generic connection-error reason and not the message of the dead SSLError
handler, and a plain connection failure with the same detail text produces
the identical reason; the remaining failure categories do have pairwise
distinct reasons. -/
theorem check_website_tls_not_distinguished (tmo : Nat) (o : ProbeOutcome) :
    ((check_website tmo o).1 = false →
      (check_website tmo o).2 ≠ Option.none ∧
        0 < ((check_website tmo o).2.getD "").length)
    ∧ ((check_website tmo o).1 = true → (check_website tmo o).2 = Option.none)
    ∧ (∀ d : String, check_website tmo (ProbeOutcome.sslError d) =
        check_website tmo (ProbeOutcome.connectionError d))
    ∧ check_website 30 (ProbeOutcome.sslError "certificate verify failed") =
        (false, some ("Connection error: Unable to connect to server at "
          ++ WEBSITE_URL ++ ". Details: certificate verify failed"))
    ∧ (check_website 30 (ProbeOutcome.sslError "certificate verify failed")).2 ≠
        some (ssl_handler_reason "certificate verify failed")
    ∧ [(check_website 30 ProbeOutcome.timeout).2,
        (check_website 30 (ProbeOutcome.connectionError "Name or service not known")).2,
        (check_website 30 (ProbeOutcome.connectionError "Connection refused")).2,
        (check_website 30 (ProbeOutcome.connectionError "connection reset by peer")).2,
        (check_website 30 ProbeOutcome.tooManyRedirects).2,
        (check_website 30 (ProbeOutcome.requestException "ChunkedEncodingError" "broken chunk")).2,
        (check_website 30 (ProbeOutcome.unexpectedError "MemoryError" "out of memory")).2,
        (check_website 30 (ProbeOutcome.success 503 "maintenance")).2].Nodup := by
  refine ⟨?_, ?_, fun d => rfl, by decide, by decide, by decide⟩
  · intro h
    cases o with
    | success status text => exact check_response_reason_nonempty status text h
    | timeout =>
      refine ⟨by simp [check_website], ?_⟩
      simp only [check_website, Option.getD_some]
      repeat apply length_append_pos
      decide
    | connectionError detail => exact (connection_error_result_spec detail).2
    | sslError detail => exact (connection_error_result_spec detail).2
    | tooManyRedirects =>
      refine ⟨by simp [check_website], ?_⟩
      simp only [check_website, Option.getD_some]
      repeat apply length_append_pos
      decide
    | requestException excName detail =>
      refine ⟨by simp [check_website], ?_⟩
      simp only [check_website, Option.getD_some]
      repeat apply length_append_pos
      decide
    | unexpectedError excName detail =>
      refine ⟨by simp [check_website], ?_⟩
      simp only [check_website, Option.getD_some]
      repeat apply length_append_pos
      decide
  · intro h
    cases o with
    | success status text =>
      by_cases h200 : status = 200
      · by_cases hc : substr_in "C2SMART" text ∨ 1000 < text.length
        · simp [check_website, check_response, h200, hc]
        · simp [check_website, check_response, h200, hc] at h
      · simp [check_website, check_response, h200] at h
    | timeout => simp [check_website] at h
    | connectionError detail =>
      have h1 := (connection_error_result_spec detail).1
      simp only [check_website] at h
      rw [h1] at h
      exact absurd h (by decide)
    | sslError detail =>
      have h1 := (connection_error_result_spec detail).1
      simp only [check_website] at h
      rw [h1] at h
      exact absurd h (by decide)
    | tooManyRedirects => simp [check_website] at h
    | requestException excName detail => simp [check_website] at h
    | unexpectedError excName detail => simp [check_website] at h

/-- Witness for C6 at the TLS failure outcome. -/
theorem check_website_tls_not_distinguished_witness :
    (check_website 30 (ProbeOutcome.sslError "certificate verify failed")).1 = false
    ∧ (check_website 30 (ProbeOutcome.sslError "certificate verify failed")).2 ≠ Option.none
    ∧ 0 < ((check_website 30 (ProbeOutcome.sslError "certificate verify failed")).2.getD "").length
    ∧ check_website 30 (ProbeOutcome.sslError "x") =
        check_website 30 (ProbeOutcome.connectionError "x") :=
  ⟨by decide,
   ((check_website_tls_not_distinguished 30
      (ProbeOutcome.sslError "certificate verify failed")).1 (by decide)).1,
   ((check_website_tls_not_distinguished 30
      (ProbeOutcome.sslError "certificate verify failed")).1 (by decide)).2,
   (check_website_tls_not_distinguished 30
      (ProbeOutcome.sslError "x")).2.2.1 "x"⟩

/-! ## Credential lifecycle (HeartbeatMonitor.authenticate_gmail, lines
110-196; test_gmail.load_and_authenticate; fix_token_timezone)

An ISO-8601 expiry string is abstracted by its offset form together with the
instants it denotes: `ExpiryStr.naive t` is an offset-less timestamp whose
wall-clock value denotes instant `t` when read as UTC; `ExpiryStr.zulu t`
carries the Zulu marker; `ExpiryStr.offset t off` carries an explicit UTC
offset `off`, so its wall-clock value `t` denotes instant `t - off`;
`ExpiryStr.malformed` is any string `datetime.fromisoformat` rejects.
A parsed `datetime` is `Dt`: either naive or aware of its offset.
-/

inductive ExpiryStr where
  | naive (t : Int)
  | zulu (t : Int)
  | offset (t off : Int)
  | malformed
deriving DecidableEq, Repr

inductive Dt where
  | naive (wall : Int)
  | aware (wall : Int) (off : Int)
deriving DecidableEq, Repr

/-- Parsing by `datetime.fromisoformat` applied after the code has replaced a trailing
Zulu marker by the +00:00 offset (lines 138-140): a naive string parses to a
naive datetime, an offset-carrying string to an aware one, and a malformed
string raises (modelled as no result). -/
def fromisoformat : ExpiryStr → Option Dt
  | ExpiryStr.naive t => some (Dt.naive t)
  | ExpiryStr.zulu t => some (Dt.aware t 0)
  | ExpiryStr.offset t off => some (Dt.aware t off)
  | ExpiryStr.malformed => Option.none

/-- Lines 141-144: a naive datetime gets `tzinfo=timezone.utc` attached
unchanged (`replace`), an aware one is converted to UTC (`astimezone`). -/
def toUtc : Dt → Dt
  | Dt.naive w => Dt.aware w 0
  | Dt.aware w off => Dt.aware (w - off) 0

/-- The instant a datetime denotes, reading naive wall-clock values as UTC. -/
def utcInstant : Dt → Int
  | Dt.naive w => w
  | Dt.aware w off => w - off

/-- The whole expiry-normalization block (lines 135-148): parse the stored
string and normalize to UTC; a parse exception is caught and leaves the
expiry unset. -/
def parse_expiry (e : ExpiryStr) : Option Dt :=
  (fromisoformat e).map toUtc

/-- Loading the optional expiry field of the token file. -/
def load_expiry : Option ExpiryStr → Option Dt
  | Option.none => Option.none
  | some e => parse_expiry e

/-- Serialization of a refreshed expiry (lines 163-166): force UTC by
`astimezone`/`replace`, take `isoformat()`, and replace the +00:00 suffix by
the Zulu marker. -/
def isoformatZ : Dt → ExpiryStr
  | Dt.naive w => ExpiryStr.naive w
  | Dt.aware w off => if off = 0 then ExpiryStr.zulu w else ExpiryStr.offset w off

def serialize_expiry (d : Dt) : ExpiryStr :=
  isoformatZ (toUtc d)

/-- Modelled from the spec: the `creds.valid` property of the google-auth
library, which the repository code only calls, is not part of the sources.
Per the spec, the token is valid only if an access token is present and
either no expiry is recorded or the expiry is strictly in the future; the
comparison of a naive expiry with the aware current time raises (the
TypeError the code guards against), modelled as an error result. -/
def creds_valid (token : Option String) (expiry : Option Dt) (now : Int) :
    Except Unit Bool :=
  match token with
  | Option.none => Except.ok false
  | some _ =>
    match expiry with
    | Option.none => Except.ok true
    | some (Dt.naive _) => Except.error ()
    | some (Dt.aware w off) => Except.ok (decide (now < w - off))

/-- Lines 150-155: the validity check wrapped in try/except — a raised
TypeError or AttributeError is treated as invalid. -/
def checked_is_valid (token : Option String) (expiry : Option Dt) (now : Int) :
    Bool :=
  match creds_valid token expiry now with
  | Except.ok b => b
  | Except.error _ => false

/-- Line 157: a refresh is attempted exactly when the checked validity is
false. -/
def refresh_attempted (token : Option String) (expiry : Option Dt) (now : Int) :
    Bool :=
  ! checked_is_valid token expiry now

/-- C5: after the normalization performed on load, the validity check never
raises for any combination of token presence and expiry form; a naive or
Zulu expiry in the past (or at the current instant) is judged invalid and a
future one (with a token present) valid; and whenever the check judges the
credential invalid — including when the raw check raises on a naive expiry —
a refresh is attempted instead of crashing. -/
theorem validity_check_total (token : Option String) (e : Option ExpiryStr)
    (now : Int) :
    creds_valid token (load_expiry e) now ≠ Except.error ()
    ∧ (∀ t : Int, t ≤ now →
        checked_is_valid token (load_expiry (some (ExpiryStr.naive t))) now = false
        ∧ checked_is_valid token (load_expiry (some (ExpiryStr.zulu t))) now = false)
    ∧ (∀ (tok : String) (t : Int), now < t →
        checked_is_valid (some tok) (load_expiry (some (ExpiryStr.naive t))) now = true
        ∧ checked_is_valid (some tok) (load_expiry (some (ExpiryStr.zulu t))) now = true)
    ∧ (∀ (tok2 : Option String) (d : Option Dt),
        checked_is_valid tok2 d now = false → refresh_attempted tok2 d now = true)
    ∧ (∀ (tok2 : Option String) (d : Option Dt),
        creds_valid tok2 d now = Except.error () → refresh_attempted tok2 d now = true) := by
  refine ⟨?_, ?_, ?_, ?_, ?_⟩
  · cases token with
    | none => simp [creds_valid]
    | some tok =>
      cases e with
      | none => simp [creds_valid, load_expiry]
      | some es =>
        cases es <;>
          simp [creds_valid, load_expiry, parse_expiry, fromisoformat, toUtc]
  · intro t hpast
    cases token with
    | none =>
      constructor <;>
        simp [checked_is_valid, creds_valid, load_expiry, parse_expiry,
          fromisoformat, toUtc]
    | some tok =>
      constructor
      · simp [checked_is_valid, creds_valid, load_expiry, parse_expiry,
          fromisoformat, toUtc]
        omega
      · simp [checked_is_valid, creds_valid, load_expiry, parse_expiry,
          fromisoformat, toUtc]
        omega
  · intro tok t hfut
    constructor
    · simp [checked_is_valid, creds_valid, load_expiry, parse_expiry,
        fromisoformat, toUtc]
      omega
    · simp [checked_is_valid, creds_valid, load_expiry, parse_expiry,
        fromisoformat, toUtc]
      omega
  · intro tok2 d h
    simp [refresh_attempted, h]
  · intro tok2 d h
    simp [refresh_attempted, checked_is_valid, h]

/-- Witness for C5: no token and a past Zulu expiry at a concrete instant. -/
theorem validity_check_total_witness :
    creds_valid Option.none (load_expiry (some (ExpiryStr.zulu 100))) 200 ≠ Except.error ()
    ∧ checked_is_valid Option.none (load_expiry (some (ExpiryStr.zulu 100))) 200 = false
    ∧ checked_is_valid (some "tok") (load_expiry (some (ExpiryStr.zulu 300))) 200 = true
    ∧ refresh_attempted (some "tok") (some (Dt.naive 300)) 200 = true :=
  ⟨(validity_check_total Option.none (some (ExpiryStr.zulu 100)) 200).1,
   ((validity_check_total Option.none (some (ExpiryStr.zulu 100)) 200).2.1 100 (by decide)).2,
   ((validity_check_total (some "tok") Option.none 200).2.2.1 "tok" 300 (by decide)).2,
   (validity_check_total (some "tok") Option.none 200).2.2.2.2 (some "tok")
     (some (Dt.naive 300)) rfl⟩

/-- The fields of the credentials object built on lines 125-132 and mutated
by a successful refresh. -/
structure Creds where
  token : Option String
  refresh_token : Option String
  token_uri : Option String
  client_id : Option String
  client_secret : Option String
  scopes : List String
  expiry : Option Dt
deriving DecidableEq, Repr

/-- The token_data dictionary written back to gmail_token.json on lines
168-181, with the expiry serialized by lines 163-166. -/
structure SavedToken where
  token : Option String
  refresh_token : Option String
  token_uri : Option String
  client_id : Option String
  client_secret : Option String
  scopes : List String
  universe_domain : String
  account : String
  expiry : Option ExpiryStr
deriving DecidableEq, Repr

/-- Lines 162-181: build the token_data dictionary from the refreshed
credentials. -/
def save_token_data (c : Creds) : SavedToken :=
  { token := c.token
    refresh_token := c.refresh_token
    token_uri := c.token_uri
    client_id := c.client_id
    client_secret := c.client_secret
    scopes := c.scopes
    universe_domain := "googleapis.com"
    account := ""
    expiry :=
      match c.expiry with
      | Option.none => Option.none
      | some d => some (serialize_expiry d) }

/-- The externally visible events of `authenticate_gmail` after the token
file has been loaded and normalized (lines 150-189), in program order. -/
inductive AuthEvent where
  | refreshCall
  | saveToken (d : SavedToken)
  | buildService
deriving DecidableEq, Repr

/-- Lines 150-189 of `authenticate_gmail`: check validity; if invalid,
refresh (whose outcome is the parameter `refreshResult`, `none` meaning the
refresh raised, which the enclosing try/except catches before any further
event), save the refreshed token to the file, and only then build the Gmail
service.  Returns the event trace and the overall success flag. -/
def authenticate_steps (c : Creds) (now : Int) (refreshResult : Option Creds) :
    List AuthEvent × Bool :=
  if checked_is_valid c.token c.expiry now then
    ([AuthEvent.buildService], true)
  else
    match refreshResult with
    | Option.none => ([AuthEvent.refreshCall], false)
    | some rc =>
        ([AuthEvent.refreshCall, AuthEvent.saveToken (save_token_data rc),
          AuthEvent.buildService], true)

/-- C7: whenever the loaded credential is judged invalid and the refresh
succeeds, the full refreshed credential — every field, with the expiry
normalized to UTC and given the Zulu suffix — is written back strictly
before the mail service is built, and the service is never built when the
refresh fails. -/
theorem refresh_persisted_before_use (c rc : Creds) (now : Int)
    (hinv : checked_is_valid c.token c.expiry now = false) :
    ((authenticate_steps c now (some rc)).1.take 2 =
        [AuthEvent.refreshCall, AuthEvent.saveToken (save_token_data rc)]
      ∧ (authenticate_steps c now (some rc)).1.get? 2 = some AuthEvent.buildService
      ∧ (authenticate_steps c now (some rc)).2 = true)
    ∧ ((save_token_data rc).token = rc.token
      ∧ (save_token_data rc).refresh_token = rc.refresh_token
      ∧ (save_token_data rc).token_uri = rc.token_uri
      ∧ (save_token_data rc).client_id = rc.client_id
      ∧ (save_token_data rc).client_secret = rc.client_secret
      ∧ (save_token_data rc).scopes = rc.scopes)
    ∧ (∀ d : Dt, rc.expiry = some d →
        (save_token_data rc).expiry = some (ExpiryStr.zulu (utcInstant d)))
    ∧ (authenticate_steps c now Option.none).1 = [AuthEvent.refreshCall]
    ∧ AuthEvent.buildService ∉ (authenticate_steps c now Option.none).1 := by
  refine ⟨?_, ⟨rfl, rfl, rfl, rfl, rfl, rfl⟩, ?_, ?_, ?_⟩
  · simp [authenticate_steps, hinv]
  · intro d hd
    cases d with
    | naive w =>
      simp [save_token_data, hd, serialize_expiry, toUtc, isoformatZ, utcInstant]
    | aware w off =>
      simp [save_token_data, hd, serialize_expiry, toUtc, isoformatZ, utcInstant]
  · simp [authenticate_steps, hinv]
  · simp [authenticate_steps, hinv]

/-- Witness for C7: a credential with no access token (hence invalid) and a
successful refresh yielding an aware expiry. -/
theorem refresh_persisted_before_use_witness :
    checked_is_valid (Creds.mk Option.none Option.none Option.none Option.none
        Option.none [] Option.none).token
      (Creds.mk Option.none Option.none Option.none Option.none
        Option.none [] Option.none).expiry 0 = false
    ∧ (authenticate_steps
        (Creds.mk Option.none Option.none Option.none Option.none Option.none [] Option.none) 0
        (some (Creds.mk (some "t2") (some "r2") (some "uri") (some "id") (some "sec")
          ["scope"] (some (Dt.aware 500 0))))).1.take 2 =
      [AuthEvent.refreshCall,
        AuthEvent.saveToken (save_token_data
          (Creds.mk (some "t2") (some "r2") (some "uri") (some "id") (some "sec")
            ["scope"] (some (Dt.aware 500 0))))] :=
  ⟨rfl,
    ((refresh_persisted_before_use
      (Creds.mk Option.none Option.none Option.none Option.none Option.none [] Option.none)
      (Creds.mk (some "t2") (some "r2") (some "uri") (some "id") (some "sec")
        ["scope"] (some (Dt.aware 500 0))) 0 rfl).1).1⟩

/-- C8: normalizing any parseable stored expiry and saving it back yields a
Zulu-suffixed string denoting the same UTC instant, for each of the three
input forms; reloading the saved form parses to the same normalized value. -/
theorem expiry_roundtrip (e : ExpiryStr) (d : Dt) (h : parse_expiry e = some d) :
    serialize_expiry d = ExpiryStr.zulu (utcInstant d)
    ∧ parse_expiry (serialize_expiry d) = some d
    ∧ (∀ t : Int, parse_expiry (ExpiryStr.zulu t) = some (Dt.aware t 0)
        ∧ parse_expiry (ExpiryStr.naive t) = some (Dt.aware t 0)
        ∧ ∀ off : Int, parse_expiry (ExpiryStr.offset t off) = some (Dt.aware (t - off) 0)) := by
  have hform : d = Dt.aware (utcInstant d) 0 := by
    cases e with
    | naive t =>
      simp [parse_expiry, fromisoformat, toUtc] at h
      rw [← h]
      simp [utcInstant]
    | zulu t =>
      simp [parse_expiry, fromisoformat, toUtc] at h
      rw [← h]
      simp [utcInstant]
    | offset t off =>
      simp [parse_expiry, fromisoformat, toUtc] at h
      rw [← h]
      simp [utcInstant]
    | malformed =>
      simp [parse_expiry, fromisoformat] at h
  refine ⟨?_, ?_, ?_⟩
  · rw [hform]
    simp [serialize_expiry, toUtc, isoformatZ, utcInstant]
  · rw [hform]
    simp [serialize_expiry, toUtc, isoformatZ, utcInstant, parse_expiry,
      fromisoformat]
  · intro t
    refine ⟨?_, ?_, ?_⟩
    · simp [parse_expiry, fromisoformat, toUtc]
    · simp [parse_expiry, fromisoformat, toUtc]
    · intro off
      simp [parse_expiry, fromisoformat, toUtc]

/-- Witness for C8 at the instant of 2025-01-01T00:00:00Z (Unix seconds). -/
theorem expiry_roundtrip_witness :
    parse_expiry (ExpiryStr.zulu 1735689600) = some (Dt.aware 1735689600 0)
    ∧ serialize_expiry (Dt.aware 1735689600 0) =
        ExpiryStr.zulu (utcInstant (Dt.aware 1735689600 0))
    ∧ parse_expiry (serialize_expiry (Dt.aware 1735689600 0)) =
        some (Dt.aware 1735689600 0) :=
  ⟨rfl,
    (expiry_roundtrip (ExpiryStr.zulu 1735689600) (Dt.aware 1735689600 0) rfl).1,
    (expiry_roundtrip (ExpiryStr.zulu 1735689600) (Dt.aware 1735689600 0) rfl).2.1⟩

/-! ## Configuration (HeartbeatMonitor.load_config, lines 56-96, and
send_email recipient formatting, lines 234-241)

The JSON values that can sit in a config field are modelled by `JVal`;
`truthy` is Python truthiness (`not config[key]` is the negation).  A
missing config file is the `Option.none` argument of `load_config`; the
code then writes the default template and calls `sys.exit(1)`.
-/

inductive JVal where
  | jstr (s : String)
  | jlist (xs : List String)
  | jbool (b : Bool)
  | jnum (n : Int)
  | jnull
deriving DecidableEq, Repr

/-- Python truthiness of a JSON value. -/
def truthy : JVal → Bool
  | JVal.jstr s => ! decide (s = "")
  | JVal.jlist xs => ! decide (xs = [])
  | JVal.jbool b => b
  | JVal.jnum n => ! decide (n = 0)
  | JVal.jnull => false

/-- The two required config fields; a field absent from the JSON object is
`Option.none`. -/
structure RawConfig where
  recipient_email : Option JVal
  sender_email : Option JVal
deriving DecidableEq, Repr

/-- The default template written when the config file is missing
(lines 60-66); the remaining template fields are numeric and play no role in
validation. -/
def default_config : RawConfig :=
  { recipient_email := some (JVal.jlist ["your-email@example.com"]),
    sender_email := some (JVal.jstr "your-email@gmail.com") }

/-- Outcome of `load_config`: template written and process exit with the
given code, a raised ValueError with its message, or the validated config. -/
inductive LoadResult where
  | exitNonZero (code : Nat) (template : RawConfig)
  | valueError (msg : String)
  | ok (c : RawConfig)
deriving DecidableEq, Repr

/-- The `sender_email` iteration of the validation loop (lines 78-80 and
93-94): absent or falsy is an error, and so is equality with the string
`your-sender@example.com` (built by the f-string on line 93 from the key
name; note this differs from the template default). -/
def validate_sender (cfg : RawConfig) : LoadResult :=
  match cfg.sender_email with
  | Option.none => LoadResult.valueError "Please set sender_email in the config file"
  | some v =>
    if truthy v = false then
      LoadResult.valueError "Please set sender_email in the config file"
    else if v = JVal.jstr "your-sender@example.com" then
      LoadResult.valueError "Please set sender_email in the config file"
    else
      LoadResult.ok cfg

/-- Function `HeartbeatMonitor.load_config` (lines 56-96). -/
def load_config : Option RawConfig → LoadResult
  | Option.none => LoadResult.exitNonZero 1 default_config
  | some cfg =>
    match cfg.recipient_email with
    | Option.none =>
        LoadResult.valueError "Please set recipient_email in the config file"
    | some v =>
      if truthy v = false then
        LoadResult.valueError "Please set recipient_email in the config file"
      else
        match v with
        | JVal.jstr s =>
          if s = "your-email@example.com" then
            LoadResult.valueError "Please set recipient_email in the config file"
          else validate_sender cfg
        | JVal.jlist xs =>
          if xs.length = 0 then
            LoadResult.valueError
              "Please set recipient_email in the config file with at least one email address"
          else validate_sender cfg
        | _ => LoadResult.valueError "recipient_email must be a string or array format"

/-- Recipient formatting in `send_email` (lines 234-241): a list is joined
with commas, anything else is used directly as the address header (after
validation only strings and non-empty lists can reach this point, so the
remaining branches are unreachable and map to the empty header). -/
def format_recipients : JVal → String
  | JVal.jlist xs => String.intercalate ", " xs
  | JVal.jstr s => s
  | JVal.jbool _ => ""
  | JVal.jnum _ => ""
  | JVal.jnull => ""

/-- A well-formed sender value used to isolate recipient validation. -/
def good_sender : Option JVal := some (JVal.jstr "ops@example.org")

/-- C9 (evaluation of the code at the claimed and failing inputs): a missing
config file yields the template and a nonzero exit, and an empty recipients
list raises a validation error; but the unedited template itself — the
list-form recipient placeholder together with the default sender — passes
validation, contradicting the claim that unedited placeholder values are a
fatal validation error. -/
theorem config_validation_behaviour :
    load_config Option.none = LoadResult.exitNonZero 1 default_config
    ∧ load_config (some (RawConfig.mk (some (JVal.jlist [])) good_sender)) =
      LoadResult.valueError "Please set recipient_email in the config file"
    ∧ load_config (some default_config) = LoadResult.ok default_config :=
  ⟨rfl, by decide, by decide⟩

/-- C10 counterexample: the empty string is a string different from the
placeholder, yet startup validation rejects it (Python falsiness check),
refuting the claim that every non-placeholder string is accepted. -/
theorem recipient_empty_string_rejected :
    load_config (some (RawConfig.mk (some (JVal.jstr "")) good_sender)) =
      LoadResult.valueError "Please set recipient_email in the config file"
    ∧ "" ≠ "your-email@example.com" :=
  ⟨by decide, by decide⟩

/-- C10 (amended): a non-empty string other than the placeholder is accepted
and each alert is addressed to exactly that string; a list is accepted iff
it is non-empty; any other JSON type is rejected at startup. -/
theorem recipient_string_or_list (s : String) (xs : List String) :
    (s ≠ "" → s ≠ "your-email@example.com" →
      load_config (some (RawConfig.mk (some (JVal.jstr s)) good_sender)) =
        LoadResult.ok (RawConfig.mk (some (JVal.jstr s)) good_sender)
      ∧ format_recipients (JVal.jstr s) = s)
    ∧ (load_config (some (RawConfig.mk (some (JVal.jlist xs)) good_sender)) =
        LoadResult.ok (RawConfig.mk (some (JVal.jlist xs)) good_sender) ↔ xs ≠ [])
    ∧ (∀ v : JVal, (∀ u : String, v ≠ JVal.jstr u) →
        (∀ l : List String, v ≠ JVal.jlist l) →
        ∀ c : RawConfig,
          load_config (some (RawConfig.mk (some v) good_sender)) ≠
            LoadResult.ok c) := by
  refine ⟨?_, ?_, ?_⟩
  · intro hs hplace
    constructor
    · simp [load_config, truthy, hs, hplace, validate_sender, good_sender]
    · rfl
  · cases xs with
    | nil => simp [load_config, truthy]
    | cons a l => simp [load_config, truthy, validate_sender, good_sender]
  · intro v hs hl c
    cases v with
    | jstr u => exact absurd rfl (hs u)
    | jlist l => exact absurd rfl (hl l)
    | jbool b => cases b <;> simp [load_config, truthy]
    | jnum n =>
      by_cases hn : n = 0
      · simp [load_config, truthy, hn]
      · simp [load_config, truthy, hn]
    | jnull => simp [load_config, truthy]

/-- Witness for the amended C10 at a concrete address and list. -/
theorem recipient_string_or_list_witness :
    (load_config (some (RawConfig.mk (some (JVal.jstr "a@b.example")) good_sender)) =
        LoadResult.ok (RawConfig.mk (some (JVal.jstr "a@b.example")) good_sender)
      ∧ format_recipients (JVal.jstr "a@b.example") = "a@b.example")
    ∧ load_config (some (RawConfig.mk (some (JVal.jlist ["x@y.example"])) good_sender)) =
        LoadResult.ok (RawConfig.mk (some (JVal.jlist ["x@y.example"])) good_sender) :=
  ⟨(recipient_string_or_list "a@b.example" ["x@y.example"]).1 (by decide) (by decide),
   (recipient_string_or_list "a@b.example" ["x@y.example"]).2.1.mpr (by decide)⟩
